import Mathlib

/-!
Verification of the ScholarSynth research-workflow backend
(`backend/graph.py`, `backend/agents/planner.py`, `backend/agents/executor.py`,
`backend/agents/publisher.py`, `backend/memory.py`, `backend/main.py`).

The Python code is shallowly embedded: each agent node becomes a pure Lean
function over an explicit oracle standing for the external Gemini generator
(one `Except` value per call, so a run of the pipeline is a function of the
oracles), the LangGraph wiring becomes an explicit list of node outputs, and
`run_research_workflow` becomes a function producing the final task state
together with the ordered log of registry writes.

Python string operations used by the code (`str.split`, `str.replace`,
`str.strip`, `str.startswith`, f-string decimal formatting) are embedded as
executable functions over `List Char`, because the corresponding Lean core
`String` functions do not reduce in the kernel.
-/

/-- Decimal digit character: `digitCh d` is the character for digit `d`
(`0 ↦ '0'`, …, `9 ↦ '9'`), as produced by Python decimal formatting. -/
def digitCh (d : Nat) : Char := Char.ofNat (48 + d)

/-- Numeric value of a decimal digit character (left inverse of `digitCh`). -/
def charDig (c : Char) : Nat := c.toNat - 48

/-- Fuel-driven most-significant-first decimal digit expansion of a natural
number; `natStrAux fuel n` is correct whenever `n ≤ fuel`. -/
def natStrAux : Nat → Nat → List Char
  | 0, _ => []
  | _ + 1, 0 => []
  | fuel + 1, n + 1 => natStrAux fuel ((n + 1) / 10) ++ [digitCh ((n + 1) % 10)]

/-- Decimal string representation of a natural number, as produced by a Python
f-string interpolation such as `f"S{index * 3 + i + 1}"`. -/
def natStr (n : Nat) : String :=
  if n = 0 then "0" else String.mk (natStrAux n n)

example : natStr 0 = "0" := rfl
example : natStr 7 = "7" := rfl
example : natStr 10 = "10" := rfl
example : natStr 4937 = "4937" := rfl
example : natStr 7 = toString 7 := rfl
example : natStr 4937 = toString 4937 := rfl

/-- Decode a most-significant-first list of decimal digit characters. -/
def decodeDec (l : List Char) : Nat := l.foldl (fun acc c => acc * 10 + charDig c) 0

/-- Decode the decimal string representation back to the number. -/
def strDecode (s : String) : Nat := decodeDec s.data

theorem decodeDec_append_digit (l : List Char) (c : Char) :
    decodeDec (l ++ [c]) = decodeDec l * 10 + charDig c := by
  simp [decodeDec, List.foldl_append]

theorem charDig_digitCh {d : Nat} (h : d < 10) : charDig (digitCh d) = d := by
  revert h
  have : ∀ d, (hd : d < 10) → charDig (digitCh d) = d := by decide
  exact this d

theorem decodeDec_natStrAux : ∀ (fuel n : Nat), n ≤ fuel →
    decodeDec (natStrAux fuel n) = n := by
  intro fuel
  induction fuel with
  | zero =>
    intro n hn
    interval_cases n
    simp [natStrAux, decodeDec]
  | succ f ih =>
    intro n hn
    match n with
    | 0 => simp [natStrAux, decodeDec]
    | m + 1 =>
      rw [natStrAux, decodeDec_append_digit, ih ((m + 1) / 10) (by omega),
        charDig_digitCh (Nat.mod_lt _ (by omega))]
      omega

theorem strDecode_natStr (n : Nat) : strDecode (natStr n) = n := by
  by_cases h : n = 0
  · subst h; rfl
  · show strDecode (if n = 0 then "0" else String.mk (natStrAux n n)) = n
    rw [if_neg h]
    show decodeDec (natStrAux n n) = n
    exact decodeDec_natStrAux n n le_rfl

theorem natStr_injective : Function.Injective natStr := by
  intro a b h
  have := congrArg strDecode h
  rwa [strDecode_natStr, strDecode_natStr] at this

/-- Citation-ID strings `"S" ++ natStr m` are injective in `m`. -/
theorem citId_injective {m n : Nat} (h : "S" ++ natStr m = "S" ++ natStr n) : m = n := by
  have hd := congrArg String.data h
  rw [String.data_append, String.data_append] at hd
  have ht : (natStr m).data = (natStr n).data := by
    simpa using hd
  have : strDecode (natStr m) = strDecode (natStr n) := by
    unfold strDecode; rw [ht]
  rwa [strDecode_natStr, strDecode_natStr] at this

/-! ## Python string helpers

Executable embeddings of the Python string operations used by the agents. -/

/-- Python `"sep".join(parts)`. -/
def joinSep (sep : String) : List String → String
  | [] => ""
  | [s] => s
  | s :: rest => s ++ sep ++ joinSep sep rest

/-- Python `str.split()` helper: accumulate the current word (reversed) while
scanning; whitespace runs are collapsed and produce no empty words. -/
def pyWordsAux : List Char → List Char → List (List Char)
  | acc, [] => if acc.isEmpty then [] else [acc.reverse]
  | acc, c :: rest =>
    if c.isWhitespace then
      if acc.isEmpty then pyWordsAux [] rest else acc.reverse :: pyWordsAux [] rest
    else pyWordsAux (c :: acc) rest

/-- Python `len(s.split())`: number of whitespace-separated tokens. -/
def countWords (s : String) : Nat := (pyWordsAux [] s.data).length

example : countWords "one  two\nthree " = 3 := rfl
example : countWords "" = 0 := rfl

/-- Python `s.split('\n')`. -/
def splitOnChar (sep : Char) : List Char → List (List Char)
  | [] => [[]]
  | c :: rest =>
    let r := splitOnChar sep rest
    if c = sep then [] :: r
    else
      match r with
      | h :: t => (c :: h) :: t
      | [] => [[c]]

example : (splitOnChar '\n' "a\nbc\n".data).map String.mk = ["a", "bc", ""] := rfl

/-- Python `line.startswith('# ')`. -/
def startsWithHashSpace : List Char → Bool
  | '#' :: ' ' :: _ => true
  | _ => false

/-- Python `line.replace('# ', '')`: remove every (left-to-right,
non-overlapping) occurrence of the two-character pattern `"# "`. -/
def removeHashSpace : List Char → List Char
  | '#' :: ' ' :: rest => removeHashSpace rest
  | c :: rest => c :: removeHashSpace rest
  | [] => []

/-- Drop leading whitespace characters. -/
def dropLeadingWs : List Char → List Char
  | [] => []
  | c :: rest => if c.isWhitespace then dropLeadingWs rest else c :: rest

/-- Python `s.strip()`. -/
def pyStrip (l : List Char) : List Char :=
  (dropLeadingWs (dropLeadingWs l).reverse).reverse

example : String.mk (pyStrip "  x y ".data) = "x y" := rfl
example : String.mk (removeHashSpace "# Title # Sub".data) = "Title Sub" := rfl

/-- Python truthiness of an optional string value (`None` and `""` are falsy). -/
def truthyStr : Option String → Bool
  | none => false
  | some s => !(s == "")

/-! ## Data model (`models.py` counterparts used by the agents) -/

/-- Per-unit status of a sub-question; the Python code stores it as one of the
strings `"pending" | "processing" | "completed" | "failed"`. -/
inductive UnitStatus
  | pending
  | processing
  | completed
  | failed
deriving DecidableEq, Repr

/-- A citation attached to a sub-question (`models.Citation`). -/
structure Citation where
  id : String
  title : String
  url : String
  authors : Option String
  date : Option String
  snippet : String
deriving DecidableEq, Repr

/-- A sub-question unit (`models.SubQuestion`); `summary` defaults to `""` and
`sources` to `[]` at creation time. -/
structure SubQuestion where
  question : String
  status : UnitStatus
  summary : String := ""
  sources : List Citation := []
deriving DecidableEq, Repr

/-- The final artifact (`models.Report`); the generation timestamp is omitted
from the embedding (it is an opaque wall-clock stamp no claim refers to). -/
structure Report where
  title : String
  content : String
  word_count : Nat
  citations : List Citation
deriving DecidableEq, Repr

/-- Task lifecycle status (`models.TaskStatus`). -/
inductive TaskStatus
  | planning
  | executing
  | publishing
  | done
  | failed
deriving DecidableEq, Repr

/-- The mutable task record (`models.TaskState`); creation timestamp omitted. -/
structure TaskState where
  task_id : String
  query : String
  status : TaskStatus
  current_step : String
  progress_percentage : Nat
  sub_questions : List SubQuestion := []
  report : Option Report := none
  error : Option String := none
deriving DecidableEq, Repr

/-- Modelled from the spec: `TaskState.update_progress` is defined in
`models.py`, which is not among the sources; per the spec (§3, §4.5 — the task
record carries a "human-readable current-step description" and an "integer
progress percentage" that the controller writes after each stage) it writes the
given step text and progress percentage onto the task record. -/
def TaskState.update_progress (t : TaskState) (step : String) (pct : Nat) : TaskState :=
  { t with current_step := step, progress_percentage := pct }

/-- One source entry of the generator's JSON answer for a sub-question
(`response["sources"]` elements in `executor.py`). -/
structure SourceData where
  title : String
  url : String
  authors : Option String
  date : Option String
  snippet : String
deriving DecidableEq, Repr

/-- The generator's parsed JSON answer for one sub-question (`executor.py`
reads the `summary` and `sources` fields; `facts` is read but never used). -/
structure ExecResponse where
  summary : String
  sources : List SourceData
deriving DecidableEq, Repr

/-! ## Node outputs and the planner (`agents/planner.py`) -/

/-- The partial state dictionary a LangGraph node returns; absent keys are
`none` and leave the merged graph state unchanged. -/
structure NodeOutput where
  sub_questions : Option (List SubQuestion) := none
  report : Option Report := none
  error : Option String := none
  current_step : Option String := none
  progress_percentage : Option Nat := none
  status : Option String := none
deriving DecidableEq, Repr

/-- The pending units the planner builds from the generator's question list
(`SubQuestion(question=q, status="pending")` for each string). -/
def plannerUnits (qs : List String) : List SubQuestion :=
  qs.map fun q => { question := q, status := .pending, summary := "", sources := [] }

/-- `planner_node`: one generator call, whose outcome is the explicit oracle
argument.  `.error e` covers both a raised generator error and the
missing-`sub_questions`-field `ValueError`; the `except` branch stamps
`"Planner failed: "` onto the message.  No validation of the question count is
performed. -/
def planner_node (oracle : Except String (List String)) : NodeOutput :=
  match oracle with
  | .ok qs =>
      { sub_questions := some (plannerUnits qs),
        status := some "planning",
        current_step := some ("Planning complete - " ++ natStr qs.length
          ++ " research questions generated"),
        progress_percentage := some 20 }
  | .error e =>
      { error := some ("Planner failed: " ++ e),
        current_step := some "Planning failed",
        progress_percentage := some 0 }

/-! ## The executor (`agents/executor.py`) -/

/-- The citation objects built for one unit: source ordinal `i` yields ID
`f"S{index * 3 + i + 1}"`. -/
def buildCitations (index : Nat) (sources_data : List SourceData) : List Citation :=
  sources_data.mapIdx fun i source =>
    { id := "S" ++ natStr (index * 3 + i + 1),
      title := source.title,
      url := source.url,
      authors := source.authors,
      date := source.date,
      snippet := source.snippet }

/-- `execute_single_question`: on a successful generator call the unit gets the
summary, the freshly built citations and status `completed`; on any exception
the unit gets status `failed` and the error text as its summary (its `sources`
field is left as it was). -/
def execute_single_question (oracle : Nat → Except String ExecResponse)
    (question : SubQuestion) (index : Nat) : SubQuestion :=
  match oracle index with
  | .ok response =>
      { question with
        summary := response.summary,
        sources := buildCitations index response.sources,
        status := .completed }
  | .error e =>
      { question with
        status := .failed,
        summary := "Failed to research: " ++ e }

/-- The settled unit list: `asyncio.gather` over
`[execute_single_question(q, i) for i, q in enumerate(sub_questions)]`
returns the results in input order. -/
def executorOutput (oracle : Nat → Except String ExecResponse)
    (sub_questions : List SubQuestion) : List SubQuestion :=
  sub_questions.mapIdx fun i q => execute_single_question oracle q i

/-- `executor_node`: empty input is the only stage-level failure; otherwise all
units are settled and returned in order with a fixed 70% progress stamp. -/
def executor_node (oracle : Nat → Except String ExecResponse)
    (sub_questions : List SubQuestion) : NodeOutput :=
  if sub_questions.isEmpty then
    { error := some "No sub-questions to execute",
      current_step := some "Execution failed - no questions",
      progress_percentage := some 20 }
  else
    let completed_questions := executorOutput oracle sub_questions
    let successful :=
      (completed_questions.filter fun q => q.status == .completed).length
    { sub_questions := some completed_questions,
      status := some "executing",
      current_step := some ("Research complete - " ++ natStr successful ++ "/"
        ++ natStr sub_questions.length ++ " questions answered"),
      progress_percentage := some 70 }

/-! ## The publisher (`agents/publisher.py`) -/

/-- The per-source lines of `format_summaries` (Python truthiness: an
`authors`/`date` value that is `None` or `""` prints nothing). -/
def sourceLines (c : Citation) : String :=
  "- [" ++ c.id ++ "] " ++ c.title ++ "\n"
  ++ "  URL: " ++ c.url ++ "\n"
  ++ (if truthyStr c.authors then "  Authors: " ++ c.authors.getD "" ++ "\n" else "")
  ++ (if truthyStr c.date then "  Date: " ++ c.date.getD "" ++ "\n" else "")
  ++ "  Snippet: " ++ c.snippet ++ "\n\n"

/-- The section `format_summaries` builds for one included unit (`i` is the
1-based position from `enumerate(sub_questions, 1)`). -/
def sectionFor (i : Nat) (q : SubQuestion) : String :=
  "\n--- Sub-Question " ++ natStr i ++ " ---\n"
  ++ "Q: " ++ q.question ++ "\n\n"
  ++ "Summary:\n" ++ q.summary ++ "\n\n"
  ++ (if q.sources.isEmpty then ""
      else "Sources:\n" ++ joinSep "" (q.sources.map sourceLines))

/-- The list `formatted` of `format_summaries`: units that are not `completed`
or have a falsy (empty) summary are skipped. -/
def collectSections (i : Nat) : List SubQuestion → List String
  | [] => []
  | q :: rest =>
    if q.status = .completed ∧ q.summary ≠ "" then
      sectionFor i q :: collectSections (i + 1) rest
    else collectSections (i + 1) rest

/-- `format_summaries`: `"\n".join(formatted)`. -/
def format_summaries (sub_questions : List SubQuestion) : String :=
  joinSep "\n" (collectSections 1 sub_questions)

/-- One `d[c.id] = c` step on the Python dict built by
`{c.id: c for c in all_citations}`: an existing key keeps its position and gets
the new value, a new key is appended. -/
def dictInsert (d : List (String × Citation)) (c : Citation) : List (String × Citation) :=
  if d.any fun p => p.1 == c.id then
    d.map fun p => if p.1 == c.id then (p.1, c) else p
  else d ++ [(c.id, c)]

/-- The Python dict comprehension `{c.id: c for c in all_citations}` as an
insertion-ordered association list. -/
def pyDict (cs : List Citation) : List (String × Citation) :=
  cs.foldl dictInsert []

/-- `list({c.id: c for c in all_citations}.values())`: deduplication by ID
(keys keep first-occurrence order, values are the last assignment). -/
def dedupById (cs : List Citation) : List Citation :=
  (pyDict cs).map Prod.snd

/-- The loop collecting `all_citations` (`extend` guarded by the truthiness of
`q.sources`). -/
def allCitations (sub_questions : List SubQuestion) : List Citation :=
  sub_questions.foldl (fun acc q => if q.sources.isEmpty then acc else acc ++ q.sources) []

/-- Title extraction: the first line starting with `"# "`, with every `"# "`
removed and stripped, else the query. -/
def extractTitle (query content : String) : String :=
  match (splitOnChar '\n' content.data).find? startsWithHashSpace with
  | some line => String.mk (pyStrip (removeHashSpace line))
  | none => query

/-- `publisher_node`: the `ValueError` for an empty synthesis input and a
generator failure both land in the `except` branch with an 80% stamp; on
success the report is assembled and the node reports `done` at 100%. -/
def publisher_node (synth : Except String String) (query : String)
    (sub_questions : List SubQuestion) : NodeOutput :=
  let summaries := format_summaries sub_questions
  if summaries = "" then
    { error := some "Publisher failed: No completed research to synthesize",
      current_step := some "Report synthesis failed",
      progress_percentage := some 80 }
  else
    match synth with
    | .error e =>
        { error := some ("Publisher failed: " ++ e),
          current_step := some "Report synthesis failed",
          progress_percentage := some 80 }
    | .ok report_content =>
        { report := some
            { title := extractTitle query report_content,
              content := report_content,
              word_count := countWords report_content,
              citations := dedupById (allCitations sub_questions) },
          current_step := some "Report generation complete",
          progress_percentage := some 100,
          status := some "done" }

/-! ## Graph wiring (`graph.py`) -/

/-- The LangGraph `GraphState` (`task_id`/`query` fixed at entry, the rest
merged from node outputs key by key). -/
structure GraphState where
  task_id : String
  query : String
  status : String
  sub_questions : List SubQuestion
  report : Option Report
  error : Option String
  current_step : String
  progress_percentage : Nat
deriving DecidableEq, Repr

/-- The `initial_state` dict of `run_research_workflow`. -/
def initialGraphState (task_id query : String) : GraphState :=
  { task_id, query,
    status := "planning",
    sub_questions := [],
    report := none,
    error := none,
    current_step := "Starting research...",
    progress_percentage := 0 }

/-- LangGraph state merge: every key a node returns overwrites the channel,
absent keys are unchanged. -/
def applyOutput (s : GraphState) (o : NodeOutput) : GraphState :=
  { s with
    sub_questions := o.sub_questions.getD s.sub_questions,
    report := if o.report.isSome then o.report else s.report,
    error := if o.error.isSome then o.error else s.error,
    current_step := o.current_step.getD s.current_step,
    progress_percentage := o.progress_percentage.getD s.progress_percentage,
    status := o.status.getD s.status }

/-- `should_continue_to_executor`: a truthy `error` or a falsy (empty)
`sub_questions` list short-circuits to `END`. -/
def should_continue_to_executor (state : GraphState) : String :=
  if truthyStr state.error then "end"
  else if state.sub_questions.isEmpty then "end"
  else "executor"

/-- `should_continue_to_publisher`: short-circuit on a truthy `error`, an empty
unit list, or zero units with status `completed`. -/
def should_continue_to_publisher (state : GraphState) : String :=
  if truthyStr state.error then "end"
  else if state.sub_questions.isEmpty then "end"
  else if (state.sub_questions.filter fun q => q.status == .completed).length = 0 then "end"
  else "publisher"

/-- The sequence of node outputs `research_graph.astream(initial_state)`
yields: planner, then (conditionally) executor, then (conditionally)
publisher.  Each stage's single generator call is an explicit oracle. -/
def graphStream (planOr : Except String (List String))
    (execOr : Nat → Except String ExecResponse)
    (synthOr : Except String String)
    (task_id query : String) : List NodeOutput :=
  let s0 := initialGraphState task_id query
  let pOut := planner_node planOr
  let s1 := applyOutput s0 pOut
  if should_continue_to_executor s1 = "end" then [pOut]
  else
    let eOut := executor_node execOr s1.sub_questions
    let s2 := applyOutput s1 eOut
    if should_continue_to_publisher s2 = "end" then [pOut, eOut]
    else [pOut, eOut, publisher_node synthOr s2.query s2.sub_questions]

/-- The Python→`TaskStatus` `status_map` of `run_research_workflow` (no entry
maps to `FAILED`; unknown strings keep the current status). -/
def statusOfString (s : String) : Option TaskStatus :=
  if s = "planning" then some .planning
  else if s = "executing" then some .executing
  else if s = "publishing" then some .publishing
  else if s = "done" then some .done
  else none

/-- The body of the `astream` loop of `run_research_workflow`: fold one node
output into the task state (status map, progress write, unit list, report
with its `DONE` + 100% stamp, then error with its `FAILED` stamp). -/
def processNodeOutput (t : TaskState) (o : NodeOutput) : TaskState :=
  let t1 :=
    match o.status with
    | some s => if s ≠ "" then { t with status := (statusOfString s).getD t.status } else t
    | none => t
  let t2 :=
    if truthyStr o.current_step || o.progress_percentage.isSome then
      t1.update_progress (o.current_step.getD t1.current_step)
        (o.progress_percentage.getD t1.progress_percentage)
    else t1
  let t3 :=
    match o.sub_questions with
    | some qs => if qs.isEmpty then t2 else { t2 with sub_questions := qs }
    | none => t2
  let t4 :=
    match o.report with
    | some r =>
        ({ t3 with report := some r, status := .done }).update_progress
          "Research complete!" 100
    | none => t3
  match o.error with
  | some e => if e ≠ "" then { t4 with status := .failed, error := some e } else t4
  | none => t4

/-- Process the streamed node outputs in order, also returning the registry
write made after each one. -/
def processAll (t : TaskState) : List NodeOutput → TaskState × List TaskState
  | [] => (t, [])
  | o :: rest =>
    let t1 := processNodeOutput t o
    let (tf, ws) := processAll t1 rest
    (tf, t1 :: ws)

/-- The post-loop fixup on `final_state` when the last node output carried no
truthy error: promote to `DONE` at 100% only if a report is present. -/
def finalNoError (t : TaskState) : TaskState :=
  if t.status ≠ .done then
    match t.report with
    | some _ => ({ t with status := .done }).update_progress "Research complete!" 100
    | none => t
  else t

/-- The post-loop fixup of `run_research_workflow` on the last streamed node
output (`final_state`). -/
def finalUpdate (t : TaskState) (fo : NodeOutput) : TaskState :=
  match fo.error with
  | some e =>
      if e ≠ "" then
        ({ t with status := .failed, error := some e }).update_progress
          ("Failed: " ++ e) 0
      else finalNoError t
  | none => finalNoError t

/-- `run_research_workflow`: returns the final task state together with the
ordered log of registry writes (`memory_store.update` calls) it performs.  The
log starts with the pre-stream "Planning research questions..." write and ends
with the final post-loop write. -/
def run_research_workflow (task_state : TaskState)
    (planOr : Except String (List String))
    (execOr : Nat → Except String ExecResponse)
    (synthOr : Except String String) : TaskState × List TaskState :=
  let t1 := ({ task_state with status := .planning }).update_progress
    "Planning research questions..." 5
  let outputs := graphStream planOr execOr synthOr task_state.task_id task_state.query
  let (t2, ws) := processAll t1 outputs
  let t3 :=
    match outputs.getLast? with
    | some fo => finalUpdate t2 fo
    | none => t2
  (t3, t1 :: (ws ++ [t3]))

/-! ## Task registry (`memory.py`) and API boundary (`main.py`) -/

/-- The thread-safe dict inside `MemoryStore`, modelled as a map from task id
to the stored record (Python dict over string keys). -/
def MemoryStore := String → Option TaskState

/-- `MemoryStore.create`: unconditional insert. -/
def MemoryStore.create (s : MemoryStore) (t : TaskState) : MemoryStore :=
  fun k => if k = t.task_id then some t else s k

/-- `MemoryStore.get`. -/
def MemoryStore.get (s : MemoryStore) (task_id : String) : Option TaskState :=
  s task_id

/-- `MemoryStore.update`: writes only when the id is present, returning the
stored state; otherwise returns `none` and leaves the store unchanged. -/
def MemoryStore.update (s : MemoryStore) (task_id : String) (t : TaskState) :
    Option TaskState × MemoryStore :=
  if (s task_id).isSome then
    (some t, fun k => if k = task_id then some t else s k)
  else (none, s)

/-- `MemoryStore.delete`: removes a present id and reports whether it was
present. -/
def MemoryStore.delete (s : MemoryStore) (task_id : String) : Bool × MemoryStore :=
  if (s task_id).isSome then
    (true, fun k => if k = task_id then none else s k)
  else (false, s)

/-- The `DELETE /api/report/{task_id}` handler: `none` models the 404
`HTTPException`, `some` the success message. -/
def delete_report (s : MemoryStore) (task_id : String) :
    Option String × MemoryStore :=
  let (deleted, s1) := s.delete task_id
  if deleted then (some "Task deleted successfully", s1) else (none, s1)

/-- The `GET /api/report/{task_id}/status` handler's outcome: `none` models the
404 `HTTPException`. -/
def get_report_status (s : MemoryStore) (task_id : String) : Option TaskState :=
  s.get task_id

/-- The initial record built by `POST /api/report` before the workflow starts. -/
def createTask (task_id query : String) : TaskState :=
  { task_id, query,
    status := .planning,
    current_step := "Initializing research workflow...",
    progress_percentage := 0,
    sub_questions := [],
    report := none,
    error := none }

/-! ## Progress stream (`event_generator` in `main.py`) -/

/-- The JSON payload of a non-terminal SSE progress event. -/
structure Snapshot where
  status : TaskStatus
  current_step : String
  progress_percentage : Nat
  sub_questions_count : Nat
  completed_questions : Nat
deriving DecidableEq, Repr

/-- One SSE event: a progress snapshot, the terminal `{'status': …, 'done':
True}` event, or the `{'error': …}` event. -/
inductive SSEEvent
  | progress (s : Snapshot)
  | terminal (status : TaskStatus)
  | errorEvent (msg : String)
deriving DecidableEq, Repr

/-- The `event_data` dict built from a task state. -/
def snapshotOf (t : TaskState) : Snapshot :=
  { status := t.status,
    current_step := t.current_step,
    progress_percentage := t.progress_percentage,
    sub_questions_count := t.sub_questions.length,
    completed_questions :=
      (t.sub_questions.filter fun q => q.status == .completed).length }

/-- `event_generator`: each element of `polls` is the registry's answer to one
`memory_store.get(task_id)` poll (one loop iteration every 0.5 s);
`last_progress` starts at `-1`.  A missing task yields one error event and
stops; a terminal status yields the final event and stops; otherwise a
snapshot is emitted exactly when the progress percentage changed. -/
def event_generator : List (Option TaskState) → Int → List SSEEvent
  | [], _ => []
  | none :: _, _ => [.errorEvent "Task not found"]
  | some t :: rest, last_progress =>
    let changed := (t.progress_percentage : Int) ≠ last_progress
    let emitted := if changed then [SSEEvent.progress (snapshotOf t)] else []
    let lp := if changed then (t.progress_percentage : Int) else last_progress
    if t.status = .done ∨ t.status = .failed then
      emitted ++ [.terminal t.status]
    else emitted ++ event_generator rest lp

/-! ## Claim theorems -/

/-- C9: `delete` returns the not-found failure exactly when the id is absent
from the registry; after a delete, a `get`/status query for that id yields
not-found, and a subsequent `update` for that id returns `None` and leaves the
store unchanged (the entry is not re-created). -/
theorem delete_registry_contract (s : MemoryStore) (tid : String) (t : TaskState) :
    ((s.delete tid).1 = false ↔ s.get tid = none) ∧
    ((delete_report s tid).1 = none ↔ s.get tid = none) ∧
    (s.delete tid).2.get tid = none ∧
    get_report_status (s.delete tid).2 tid = none ∧
    (s.delete tid).2.update tid t = (none, (s.delete tid).2) := by
  by_cases h : (s tid).isSome
  · rw [Option.isSome_iff_exists] at h
    obtain ⟨v, hv⟩ := h
    simp [MemoryStore.delete, MemoryStore.get, MemoryStore.update,
      delete_report, get_report_status, hv]
  · rw [Option.not_isSome_iff_eq_none] at h
    simp [MemoryStore.delete, MemoryStore.get, MemoryStore.update,
      delete_report, get_report_status, h]

/-- C4: on a non-empty input the Execute Stage returns a unit list of the same
length, the unit at output position `i` is the settled unit at input position
`i` (same question text), and every returned unit is `completed` or `failed`. -/
theorem executor_order_and_settlement (oracle : Nat → Except String ExecResponse)
    (qs : List SubQuestion) (h : qs ≠ []) :
    ∃ out, (executor_node oracle qs).sub_questions = some out ∧
      out.length = qs.length ∧
      ∀ i (hi : i < qs.length) (ho : i < out.length),
        (out.get ⟨i, ho⟩).question = (qs.get ⟨i, hi⟩).question ∧
        ((out.get ⟨i, ho⟩).status = .completed ∨ (out.get ⟨i, ho⟩).status = .failed) := by
  refine ⟨executorOutput oracle qs, ?_, ?_, ?_⟩
  · simp [executor_node, h]
  · simp [executorOutput]
  · intro i hi ho
    have hg : (executorOutput oracle qs).get ⟨i, ho⟩
        = execute_single_question oracle (qs.get ⟨i, hi⟩) i := by
      simp [executorOutput, List.get_eq_getElem, List.getElem_mapIdx]
    rw [hg]
    cases hx : oracle i <;> simp [execute_single_question, hx]

/-- A concrete settled unit used by the witnesses. -/
def unitW : SubQuestion := { question := "w", status := .pending }

/-- A concrete executor oracle answering every unit with one source. -/
def exOrW3 : Nat → Except String ExecResponse :=
  fun _ => .ok ⟨"s", [⟨"T", "u", none, none, "sn"⟩]⟩

theorem executor_order_and_settlement_witness :
    ∃ out, (executor_node exOrW3 [unitW]).sub_questions = some out ∧
      out.length = [unitW].length ∧
      ∀ i (hi : i < [unitW].length) (ho : i < out.length),
        (out.get ⟨i, ho⟩).question = ([unitW].get ⟨i, hi⟩).question ∧
        ((out.get ⟨i, ho⟩).status = .completed ∨ (out.get ⟨i, ho⟩).status = .failed) :=
  executor_order_and_settlement exOrW3 [unitW] (List.cons_ne_nil _ _)

/-- C3: a citation built by the Execute Stage for the unit at index `u` and
source ordinal `j` has ID exactly `"S" ++ natStr (u * 3 + j + 1)`, and for any
two units settled by the generator, citation IDs at per-unit ordinals `< 3`
are pairwise distinct across the task. -/
theorem citation_id_scheme (oracle : Nat → Except String ExecResponse)
    (q q' : SubQuestion) (u u' : Nat) (resp resp' : ExecResponse)
    (h : oracle u = .ok resp) (h' : oracle u' = .ok resp') :
    (∀ j (hj : j < (execute_single_question oracle q u).sources.length),
      ((execute_single_question oracle q u).sources.get ⟨j, hj⟩).id
        = "S" ++ natStr (u * 3 + j + 1)) ∧
    (∀ j j' (hj : j < (execute_single_question oracle q u).sources.length)
        (hj' : j' < (execute_single_question oracle q' u').sources.length),
      j < 3 → j' < 3 → (u, j) ≠ (u', j') →
      ((execute_single_question oracle q u).sources.get ⟨j, hj⟩).id ≠
        ((execute_single_question oracle q' u').sources.get ⟨j', hj'⟩).id) := by
  have hid : ∀ (qq : SubQuestion) (uu : Nat) (rr : ExecResponse), oracle uu = .ok rr →
      ∀ j (hj : j < (execute_single_question oracle qq uu).sources.length),
        ((execute_single_question oracle qq uu).sources.get ⟨j, hj⟩).id
          = "S" ++ natStr (uu * 3 + j + 1) := by
    intro qq uu rr hr j hj
    have hsrc : (execute_single_question oracle qq uu).sources
        = buildCitations uu rr.sources := by
      simp [execute_single_question, hr]
    simp only [List.get_eq_getElem, hsrc, buildCitations, List.getElem_mapIdx]
  refine ⟨hid q u resp h, ?_⟩
  intro j j' hj hj' h3 h3' hne heq
  rw [hid q u resp h j hj, hid q' u' resp' h' j' hj'] at heq
  have := citId_injective heq
  apply hne
  have hu : u = u' := by omega
  have hjj : j = j' := by omega
  simp [hu, hjj]

theorem citation_id_scheme_witness :
    ((execute_single_question exOrW3 unitW 0).sources.get ⟨0, by decide⟩).id
      = "S" ++ natStr 1
    ∧ ((execute_single_question exOrW3 unitW 0).sources.get ⟨0, by decide⟩).id
      ≠ ((execute_single_question exOrW3 unitW 1).sources.get ⟨0, by decide⟩).id := by
  constructor
  · exact (citation_id_scheme exOrW3 unitW unitW 0 0 _ _ rfl rfl).1 0 (by decide)
  · exact (citation_id_scheme exOrW3 unitW unitW 0 1 _ _ rfl rfl).2 0 0
      (by decide) (by decide) (by decide) (by decide) (by decide)

/-- C7 counterexample: when the generator returns zero question strings the
planner run is a success (`error` is `None`, no stage failure is signalled)
and produces 0 units — outside 6..10. -/
theorem planner_zero_length_success_counterexample :
    (planner_node (.ok [])).error = none ∧
    (planner_node (.ok [])).sub_questions = some [] ∧
    ¬(6 ≤ (0 : Nat) ∧ (0 : Nat) ≤ 10) := ⟨rfl, rfl, by decide⟩

/-- C7 amended: the planner performs no validation of the unit count — a
successful generator call yields exactly one pending unit per returned
question string (any count, 0 included) with no error, and only a generator
failure is reported as a stage failure. -/
theorem planner_no_count_validation (qs : List String) (e : String) :
    (planner_node (.ok qs)).error = none ∧
    (planner_node (.ok qs)).sub_questions = some (plannerUnits qs) ∧
    (plannerUnits qs).length = qs.length ∧
    (planner_node (.error e)).error = some ("Planner failed: " ++ e) := by
  refine ⟨rfl, rfl, ?_, rfl⟩
  simp [plannerUnits]

/-- A string whose data list is non-empty is not `""`. -/
theorem append_ne_empty_of_left_ne (a b : String) (ha : a.data ≠ []) : a ++ b ≠ "" := by
  intro h
  have h2 : a.data ++ b.data = ([] : List Char) := by
    rw [← String.data_append, h]
  exact ha (List.append_eq_nil.mp h2).1

/-- Every section `format_summaries` builds is a non-empty string. -/
theorem sectionFor_ne_empty (i : Nat) (q : SubQuestion) : sectionFor i q ≠ "" := by
  unfold sectionFor
  rw [String.append_assoc, String.append_assoc, String.append_assoc,
    String.append_assoc, String.append_assoc, String.append_assoc,
    String.append_assoc, String.append_assoc]
  exact append_ne_empty_of_left_ne _ _ (by decide)

/-- `"\n".join l` is empty exactly when `l` is empty, provided every element
of `l` is non-empty. -/
theorem joinSep_eq_empty_iff (l : List String) (hne : ∀ s ∈ l, s ≠ "") :
    joinSep "\n" l = "" ↔ l = [] := by
  match l with
  | [] => simp [joinSep]
  | [s] =>
    simp only [joinSep, List.cons_ne_nil, iff_false]
    exact hne s (by simp)
  | s :: t :: rest =>
    simp only [joinSep, List.cons_ne_nil, iff_false]
    rw [String.append_assoc]
    intro h
    have h2 : (("\n" ++ joinSep "\n" (t :: rest)) : String).data = [] := by
      have := congrArg String.data h
      rw [String.data_append] at this
      exact (List.append_eq_nil.mp this).2
    rw [String.data_append] at h2
    exact absurd (List.append_eq_nil.mp h2).1 (by decide)

/-- Members of `collectSections` are sections, hence non-empty. -/
theorem mem_collectSections_ne_empty (qs : List SubQuestion) : ∀ (i : Nat),
    ∀ s ∈ collectSections i qs, s ≠ "" := by
  induction qs with
  | nil => intro i s hs; simp [collectSections] at hs
  | cons q rest ih =>
    intro i s hs
    rw [collectSections] at hs
    by_cases h : q.status = .completed ∧ q.summary ≠ ""
    · rw [if_pos h] at hs
      rcases List.mem_cons.mp hs with rfl | hmem
      · exact sectionFor_ne_empty _ _
      · exact ih _ _ hmem
    · rw [if_neg h] at hs
      exact ih _ _ hs

/-- `collectSections` yields nothing exactly when no unit is completed with a
non-empty summary. -/
theorem collectSections_eq_nil_iff (qs : List SubQuestion) : ∀ (i : Nat),
    collectSections i qs = [] ↔ ∀ q ∈ qs, ¬(q.status = .completed ∧ q.summary ≠ "") := by
  induction qs with
  | nil => intro i; simp [collectSections]
  | cons q rest ih =>
    intro i
    rw [collectSections]
    by_cases h : q.status = .completed ∧ q.summary ≠ ""
    · rw [if_pos h]
      exact iff_of_false (List.cons_ne_nil _ _)
        (fun hall => hall q (List.mem_cons_self _ _) h)
    · rw [if_neg h, ih (i + 1)]
      constructor
      · intro hrest q' hq'
        rcases List.mem_cons.mp hq' with rfl | hmem
        · exact h
        · exact hrest q' hmem
      · intro hall q' hq'
        exact hall q' (List.mem_cons_of_mem _ hq')

/-- The synthesis input is empty exactly when no unit is completed with a
non-empty summary. -/
theorem format_summaries_eq_empty_iff (qs : List SubQuestion) :
    format_summaries qs = "" ↔ ∀ q ∈ qs, ¬(q.status = .completed ∧ q.summary ≠ "") := by
  rw [format_summaries, joinSep_eq_empty_iff _ (mem_collectSections_ne_empty qs 1),
    collectSections_eq_nil_iff]

/-- C5 amended: when the synthesis generator succeeds, the Publish Stage
signals the "nothing to synthesize" failure if and only if no unit in its
input is `completed` *with a non-empty summary* (a completed unit whose
summary is empty does not count). -/
theorem publisher_nothing_to_synthesize_iff (content query : String)
    (qs : List SubQuestion) :
    (publisher_node (.ok content) query qs).error
      = if ∃ q ∈ qs, q.status = .completed ∧ q.summary ≠ "" then none
        else some "Publisher failed: No completed research to synthesize" := by
  by_cases h : ∃ q ∈ qs, q.status = .completed ∧ q.summary ≠ ""
  · rw [if_pos h]
    have hne : format_summaries qs ≠ "" := by
      rw [Ne, format_summaries_eq_empty_iff]
      push_neg
      obtain ⟨q, hq, h1, h2⟩ := h
      exact ⟨q, hq, h1, h2⟩
    simp [publisher_node, hne]
  · rw [if_neg h]
    have he : format_summaries qs = "" := by
      rw [format_summaries_eq_empty_iff]
      intro q hq hc
      exact h ⟨q, hq, hc⟩
    simp [publisher_node, he]

/-- A unit that is completed but carries an empty summary. -/
def unitEmptySummary : SubQuestion :=
  { question := "q0", status := .completed, summary := "", sources := [] }

/-- C5 counterexample: one unit with status `completed` (and empty summary) is
in the input, yet the Publish Stage still raises the "nothing to synthesize"
failure — refuting "whenever at least one unit is completed, that failure is
not raised". -/
theorem publisher_completed_empty_summary_counterexample :
    unitEmptySummary.status = .completed ∧
    (publisher_node (.ok "r") "q" [unitEmptySummary]).error
      = some "Publisher failed: No completed research to synthesize" :=
  ⟨rfl, rfl⟩

/-! ## Deduplication: the Python dict `{c.id: c for c in all_citations}` -/

/-- Reference semantics of "the last occurrence in original order with this
ID": the citation a Python dict comprehension keeps for a key. -/
def lastWithId : List Citation → String → Option Citation
  | [], _ => none
  | c :: rest, k =>
    match lastWithId rest k with
    | some v => some v
    | none => if c.id == k then some c else none

/-- `d[k]` on the association-list dict. -/
def lookupD (d : List (String × Citation)) (k : String) : Option Citation :=
  (d.find? fun p => p.1 == k).map Prod.snd

theorem find?_update_self (c : Citation) : ∀ (d : List (String × Citation)),
    d.any (fun p => p.1 == c.id) = true →
    ((d.map fun p => if p.1 == c.id then (p.1, c) else p).find? fun p => p.1 == c.id)
      = some (c.id, c) := by
  intro d
  induction d with
  | nil => simp
  | cons p rest ih =>
    intro h
    by_cases hp : (p.1 == c.id) = true
    · have hp' : p.1 = c.id := by rwa [beq_iff_eq] at hp
      simp only [List.map_cons, if_pos hp]
      rw [List.find?_cons_of_pos _ (by simpa using hp), hp']
    · simp only [List.map_cons, if_neg hp]
      rw [@List.find?_cons_of_neg _ (fun q => q.1 == c.id) p
        (rest.map fun p => if p.1 == c.id then (p.1, c) else p) (by simpa using hp)]
      apply ih
      simp only [List.any_cons, Bool.or_eq_true] at h
      exact h.resolve_left hp

theorem find?_update_other (c : Citation) (k : String) (hk : k ≠ c.id) :
    ∀ (d : List (String × Citation)),
    ((d.map fun p => if p.1 == c.id then (p.1, c) else p).find? fun p => p.1 == k)
      = d.find? fun p => p.1 == k := by
  intro d
  induction d with
  | nil => rfl
  | cons p rest ih =>
    by_cases hp : (p.1 == c.id) = true
    · have hp' : p.1 = c.id := by rwa [beq_iff_eq] at hp
      have hnk : ¬((p.1 == k) = true) := by
        rw [beq_iff_eq, hp']
        exact fun hh => hk hh.symm
      simp only [List.map_cons, if_pos hp]
      rw [@List.find?_cons_of_neg _ (fun q => q.1 == k) (p.1, c)
        (rest.map fun p => if p.1 == c.id then (p.1, c) else p) (by simpa using hnk)]
      rw [@List.find?_cons_of_neg _ (fun q => q.1 == k) p rest hnk]
      exact ih
    · simp only [List.map_cons, if_neg hp]
      by_cases hq : (p.1 == k) = true
      · rw [@List.find?_cons_of_pos _ (fun q => q.1 == k) p
          (rest.map fun p => if p.1 == c.id then (p.1, c) else p) hq]
        rw [@List.find?_cons_of_pos _ (fun q => q.1 == k) p rest hq]
      · rw [@List.find?_cons_of_neg _ (fun q => q.1 == k) p
          (rest.map fun p => if p.1 == c.id then (p.1, c) else p) hq]
        rw [@List.find?_cons_of_neg _ (fun q => q.1 == k) p rest hq]
        exact ih

/-- `d[c.id] = c` seen through lookups: the inserted key now maps to `c`,
every other key is untouched. -/
theorem lookupD_dictInsert (d : List (String × Citation)) (c : Citation) (k : String) :
    lookupD (dictInsert d c) k = if k = c.id then some c else lookupD d k := by
  rw [dictInsert]
  by_cases h : d.any (fun p => p.1 == c.id) = true
  · rw [if_pos h]
    by_cases hk : k = c.id
    · rw [if_pos hk, lookupD, hk, find?_update_self c d h]
      rfl
    · rw [if_neg hk, lookupD, find?_update_other c k hk d, lookupD]
  · rw [if_neg h]
    have hnone : (d.find? fun p => p.1 == c.id) = none := by
      rw [List.find?_eq_none]
      intro p hp hpc
      exact h (List.any_eq_true.mpr ⟨p, hp, hpc⟩)
    by_cases hk : k = c.id
    · rw [if_pos hk, lookupD, hk, List.find?_append, hnone, Option.none_or,
        List.find?_cons_of_pos _ (by simp)]
      rfl
    · rw [if_neg hk, lookupD, List.find?_append, lookupD]
      have hsing : (([(c.id, c)] : List (String × Citation)).find? fun p => p.1 == k) = none := by
        rw [List.find?_eq_none]
        intro p hp
        simp only [List.mem_singleton] at hp
        subst hp
        simp only [beq_iff_eq]
        exact fun hh => hk hh.symm
      rw [hsing, Option.or_none]

/-- Folding citations into the dict realizes last-occurrence lookup. -/
theorem lookupD_foldl (cs : List Citation) : ∀ (d : List (String × Citation)) (k : String),
    lookupD (cs.foldl dictInsert d) k
      = match lastWithId cs k with
        | some v => some v
        | none => lookupD d k := by
  induction cs with
  | nil => intro d k; rfl
  | cons c rest ih =>
    intro d k
    rw [List.foldl_cons, ih (dictInsert d c) k, lookupD_dictInsert]
    cases hl : lastWithId rest k with
    | some v => simp [lastWithId, hl]
    | none =>
      simp only [lastWithId, hl]
      by_cases hk : c.id = k
      · subst hk
        simp
      · rw [if_neg (fun hh => hk hh.symm),
          if_neg (by simpa [beq_iff_eq] using hk)]

theorem lookupD_pyDict (cs : List Citation) (k : String) :
    lookupD (pyDict cs) k = lastWithId cs k := by
  rw [pyDict, lookupD_foldl]
  cases lastWithId cs k <;> rfl

/-- Every entry of the dict has its key equal to its value's citation ID. -/
theorem pyDict_fst_eq_id (cs : List Citation) : ∀ p ∈ pyDict cs, p.1 = p.2.id := by
  have step : ∀ (d : List (String × Citation)) (c : Citation),
      (∀ p ∈ d, p.1 = p.2.id) → ∀ p ∈ dictInsert d c, p.1 = p.2.id := by
    intro d c hd p hp
    rw [dictInsert] at hp
    by_cases h : d.any (fun p => p.1 == c.id) = true
    · rw [if_pos h] at hp
      obtain ⟨q, hq, rfl⟩ := List.mem_map.mp hp
      by_cases hqc : (q.1 == c.id) = true
      · rw [if_pos hqc]
        exact beq_iff_eq.mp hqc
      · rw [if_neg hqc]
        exact hd q hq
    · rw [if_neg h] at hp
      rcases List.mem_append.mp hp with hin | hone
      · exact hd p hin
      · simp only [List.mem_singleton] at hone
        subst hone
        rfl
  have main : ∀ (cs : List Citation) (d : List (String × Citation)),
      (∀ p ∈ d, p.1 = p.2.id) → ∀ p ∈ cs.foldl dictInsert d, p.1 = p.2.id := by
    intro cs
    induction cs with
    | nil => intro d hd; exact hd
    | cons c rest ih =>
      intro d hd
      rw [List.foldl_cons]
      exact ih _ (step d c hd)
  exact main cs [] (by simp)

/-- The dict's keys are pairwise distinct. -/
theorem pyDict_keys_nodup (cs : List Citation) :
    ((pyDict cs).map Prod.fst).Nodup := by
  have step : ∀ (d : List (String × Citation)) (c : Citation),
      (d.map Prod.fst).Nodup → ((dictInsert d c).map Prod.fst).Nodup := by
    intro d c hd
    rw [dictInsert]
    by_cases h : d.any (fun p => p.1 == c.id) = true
    · rw [if_pos h, List.map_map]
      have hfst : ∀ p ∈ d,
          (Prod.fst ∘ fun p : String × Citation =>
            if p.1 == c.id then (p.1, c) else p) p = Prod.fst p := by
        intro p _
        by_cases hpc : p.1 = c.id
        · simp [hpc]
        · simp [hpc]
      rw [List.map_congr_left hfst]
      exact hd
    · rw [if_neg h, List.map_append, List.nodup_append]
      refine ⟨hd, by simp, ?_⟩
      intro k hk hk1
      simp only [List.map_cons, List.map_nil, List.mem_singleton] at hk1
      subst hk1
      obtain ⟨p, hp, hpk⟩ := List.mem_map.mp hk
      exact h (List.any_eq_true.mpr ⟨p, hp, by rw [beq_iff_eq, hpk]⟩)
  have main : ∀ (cs : List Citation) (d : List (String × Citation)),
      (d.map Prod.fst).Nodup → ((cs.foldl dictInsert d).map Prod.fst).Nodup := by
    intro cs
    induction cs with
    | nil => intro d hd; exact hd
    | cons c rest ih =>
      intro d hd
      rw [List.foldl_cons]
      exact ih _ (step d c hd)
  exact main cs [] (by simp)

/-- With pairwise-distinct keys, membership determines the lookup. -/
theorem lookupD_of_mem : ∀ (d : List (String × Citation)),
    (d.map Prod.fst).Nodup → ∀ {k : String} {v : Citation},
    (k, v) ∈ d → lookupD d k = some v := by
  intro d
  induction d with
  | nil => intro _ k v hm; simp at hm
  | cons p rest ih =>
    intro hnd k v hm
    rcases List.mem_cons.mp hm with rfl | hmem
    · rw [lookupD, List.find?_cons_of_pos _ (by simp)]
      rfl
    · by_cases hp : (p.1 == k) = true
      · exfalso
        have hk : k ∈ rest.map Prod.fst := List.mem_map.mpr ⟨(k, v), hmem, rfl⟩
        have hnotin : p.1 ∉ rest.map Prod.fst := by
          rw [List.map_cons, List.nodup_cons] at hnd
          exact hnd.1
        rw [beq_iff_eq.mp hp] at hnotin
        exact hnotin hk
      · rw [lookupD, @List.find?_cons_of_neg _ (fun q => q.1 == k) p rest hp]
        exact ih (by rw [List.map_cons, List.nodup_cons] at hnd; exact hnd.2) hmem

theorem lastWithId_mem : ∀ (cs : List Citation) (k : String) (v : Citation),
    lastWithId cs k = some v → v ∈ cs ∧ v.id = k := by
  intro cs
  induction cs with
  | nil => intro k v h; simp [lastWithId] at h
  | cons c rest ih =>
    intro k v h
    cases hl : lastWithId rest k with
    | some w =>
      simp only [lastWithId, hl, Option.some.injEq] at h
      subst h
      obtain ⟨hm, hid⟩ := ih k w hl
      exact ⟨List.mem_cons_of_mem _ hm, hid⟩
    | none =>
      simp only [lastWithId, hl] at h
      by_cases hc : (c.id == k) = true
      · rw [if_pos hc] at h
        simp only [Option.some.injEq] at h
        subst h
        exact ⟨List.mem_cons_self _ _, beq_iff_eq.mp hc⟩
      · rw [if_neg hc] at h
        exact absurd h (by simp)

theorem lastWithId_isSome_of_mem : ∀ (cs : List Citation) (c : Citation),
    c ∈ cs → ∃ v, lastWithId cs c.id = some v := by
  intro cs
  induction cs with
  | nil => intro c h; simp at h
  | cons d rest ih =>
    intro c hc
    rcases List.mem_cons.mp hc with rfl | hmem
    · cases hl : lastWithId rest c.id with
      | some w => exact ⟨w, by simp [lastWithId, hl]⟩
      | none => exact ⟨c, by simp [lastWithId, hl]⟩
    · obtain ⟨v, hv⟩ := ih c hmem
      exact ⟨v, by simp [lastWithId, hv]⟩

/-- The dict-based deduplication, fully characterized: one retained citation
per distinct ID, the retained citation for an ID being the *last* occurrence
carrying it. -/
theorem dedupById_spec (cs : List Citation) :
    ((dedupById cs).map Citation.id).Nodup ∧
    (∀ c ∈ dedupById cs, c ∈ cs ∧ lastWithId cs c.id = some c) ∧
    (∀ k, (∃ c ∈ cs, c.id = k) ↔ ∃ c ∈ dedupById cs, c.id = k) := by
  have hval : ∀ c ∈ dedupById cs, lastWithId cs c.id = some c := by
    intro c hc
    obtain ⟨p, hp, hsnd⟩ := List.mem_map.mp hc
    have hkey := pyDict_fst_eq_id cs p hp
    have hlook : lookupD (pyDict cs) p.1 = some p.2 := by
      apply lookupD_of_mem (pyDict cs) (pyDict_keys_nodup cs)
      exact hp
    rw [lookupD_pyDict] at hlook
    rw [← hsnd, ← hkey]
    exact hlook
  refine ⟨?_, fun c hc => ⟨(lastWithId_mem cs c.id c (hval c hc)).1, hval c hc⟩, ?_⟩
  · have hmap : (dedupById cs).map Citation.id = (pyDict cs).map Prod.fst := by
      rw [dedupById, List.map_map]
      exact List.map_congr_left fun p hp => (pyDict_fst_eq_id cs p hp).symm
    rw [hmap]
    exact pyDict_keys_nodup cs
  · intro k
    constructor
    · rintro ⟨c, hc, rfl⟩
      obtain ⟨v, hv⟩ := lastWithId_isSome_of_mem cs c hc
      have hlook : lookupD (pyDict cs) c.id = some v := by
        rw [lookupD_pyDict]; exact hv
      rw [lookupD] at hlook
      cases hfind : (pyDict cs).find? fun p => p.1 == c.id with
      | none => rw [hfind] at hlook; simp at hlook
      | some p =>
        rw [hfind] at hlook
        have hpmem := List.mem_of_find?_eq_some hfind
        have h4 : p.2 = v := by simpa using hlook
        have hvd : v ∈ dedupById cs := by
          rw [dedupById]
          exact List.mem_map.mpr ⟨p, hpmem, h4⟩
        refine ⟨v, hvd, ?_⟩
        have h1 := List.find?_some hfind
        have h2 := pyDict_fst_eq_id cs p hpmem
        have h3 : p.1 = c.id := beq_iff_eq.mp h1
        rw [← h4, ← h2, h3]
    · rintro ⟨c, hc, rfl⟩
      exact ⟨c, (lastWithId_mem cs c.id c (hval c hc)).1, rfl⟩

/-- C2 amended: the Artifact carries exactly one citation per distinct ID
among the emitted citations, but the retained citation for a duplicated ID is
the *last* occurrence in original unit-index order (the Python dict
comprehension overwrites earlier values), not the first. -/
theorem publisher_dedup_last_wins (content query : String) (qs : List SubQuestion)
    (r : Report) (h : (publisher_node (.ok content) query qs).report = some r) :
    r.citations = dedupById (allCitations qs) ∧
    (r.citations.map Citation.id).Nodup ∧
    (∀ c ∈ r.citations, c ∈ allCitations qs ∧ lastWithId (allCitations qs) c.id = some c) ∧
    (∀ k, (∃ c ∈ allCitations qs, c.id = k) ↔ ∃ c ∈ r.citations, c.id = k) := by
  have hc : r.citations = dedupById (allCitations qs) := by
    simp only [publisher_node] at h
    by_cases hs : format_summaries qs = ""
    · rw [if_pos hs] at h
      exact absurd h (by simp)
    · rw [if_neg hs] at h
      simp only [Option.some.injEq] at h
      rw [← h]
  obtain ⟨h1, h2, h3⟩ := dedupById_spec (allCitations qs)
  rw [hc]
  exact ⟨rfl, h1, h2, h3⟩

/-- First citation with ID `S1` (title `"A"`). -/
def citA : Citation :=
  { id := "S1", title := "A", url := "", authors := none, date := none, snippet := "" }

/-- Second citation with the same ID `S1` but title `"B"`. -/
def citB : Citation :=
  { id := "S1", title := "B", url := "", authors := none, date := none, snippet := "" }

/-- A completed unit carrying `citA`. -/
def unitA : SubQuestion :=
  { question := "qa", status := .completed, summary := "sa", sources := [citA] }

/-- A completed unit carrying `citB` (same citation ID as `citA`). -/
def unitB : SubQuestion :=
  { question := "qb", status := .completed, summary := "sb", sources := [citB] }

/-- C2 counterexample: two units emit citations with the same ID `"S1"`; the
first occurrence has title `"A"`, yet the Artifact retains the citation with
title `"B"` — the last occurrence wins, refuting "first occurrence wins". -/
theorem publisher_first_occurrence_counterexample :
    citA.id = citB.id ∧ citA.title = "A" ∧ citB.title = "B" ∧ citA ≠ citB ∧
    ((publisher_node (.ok "rep") "q" [unitA, unitB]).report.map fun r => r.citations)
      = some [citB] :=
  ⟨rfl, rfl, rfl, by decide, rfl⟩

/-- The report the publisher produces on the witness input. -/
def reportW : Report :=
  { title := "q", content := "rep", word_count := 1, citations := [citA] }

theorem publisher_dedup_last_wins_witness :
    reportW.citations = dedupById (allCitations [unitA]) ∧
    (reportW.citations.map Citation.id).Nodup ∧
    (∀ c ∈ reportW.citations,
      c ∈ allCitations [unitA] ∧ lastWithId (allCitations [unitA]) c.id = some c) ∧
    (∀ k, (∃ c ∈ allCitations [unitA], c.id = k) ↔ ∃ c ∈ reportW.citations, c.id = k) :=
  publisher_dedup_last_wins "rep" "q" [unitA] reportW rfl

/-! ## Partial failure (C6) support -/

theorem allCitations_eq_flatten (qs : List SubQuestion) :
    allCitations qs = (qs.map SubQuestion.sources).flatten := by
  have main : ∀ (l : List SubQuestion) (acc : List Citation),
      l.foldl (fun acc q => if q.sources.isEmpty then acc else acc ++ q.sources) acc
        = acc ++ (l.map SubQuestion.sources).flatten := by
    intro l
    induction l with
    | nil => intro acc; simp
    | cons q rest ih =>
      intro acc
      rw [List.foldl_cons]
      by_cases h : q.sources.isEmpty = true
      · rw [if_pos h, ih]
        have hq : q.sources = [] := List.isEmpty_iff.mp h
        simp [hq]
      · rw [if_neg h, ih]
        simp
  rw [allCitations, main]
  simp

/-- Units that are not completed and carry no citations contribute nothing:
the flattened citations of a unit list equal those of its completed subset. -/
theorem flatten_sources_completed : ∀ (out : List SubQuestion),
    (∀ q ∈ out, q.status ≠ .completed → q.sources = []) →
    (out.map SubQuestion.sources).flatten
      = ((out.filter fun q => q.status == .completed).map SubQuestion.sources).flatten := by
  intro out
  induction out with
  | nil => intro _; rfl
  | cons q rest ih =>
    intro h
    by_cases hc : q.status = .completed
    · rw [List.filter_cons_of_pos (by simp [hc])]
      simp only [List.map_cons, List.flatten_cons]
      rw [ih fun q hq => h q (List.mem_cons_of_mem _ hq)]
    · rw [List.filter_cons_of_neg (by simp [hc])]
      simp only [List.map_cons, List.flatten_cons]
      rw [h q (List.mem_cons_self _ _) hc,
        ih fun q hq => h q (List.mem_cons_of_mem _ hq)]
      simp

/-- Every unit the executor returns settled as `completed` or `failed`. -/
theorem executorOutput_status (oracle : Nat → Except String ExecResponse)
    (units : List SubQuestion) :
    ∀ q ∈ executorOutput oracle units, q.status = .completed ∨ q.status = .failed := by
  intro q hq
  obtain ⟨i, hi, rfl⟩ := List.mem_iff_getElem.mp hq
  simp only [executorOutput] at hi ⊢
  rw [List.getElem_mapIdx]
  cases hx : oracle i <;> simp [execute_single_question, hx]

/-- If the input units carry no citations, a unit the executor does not
complete still carries none (only the `completed` branch assigns sources). -/
theorem executorOutput_failed_sources (oracle : Nat → Except String ExecResponse)
    (units : List SubQuestion) (hu : ∀ u ∈ units, u.sources = []) :
    ∀ q ∈ executorOutput oracle units, q.status ≠ .completed → q.sources = [] := by
  intro q hq hnc
  obtain ⟨i, hi, rfl⟩ := List.mem_iff_getElem.mp hq
  simp only [executorOutput] at hi hnc ⊢
  rw [List.getElem_mapIdx] at hnc ⊢
  rw [List.length_mapIdx] at hi
  cases hx : oracle i with
  | ok resp => exact absurd (by simp [execute_single_question, hx]) hnc
  | error e =>
    simp only [execute_single_question, hx]
    exact hu _ (List.getElem_mem hi)

/-- Settled units split into the completed and the failed ones. -/
theorem filter_status_length : ∀ (l : List SubQuestion),
    (∀ q ∈ l, q.status = .completed ∨ q.status = .failed) →
    (l.filter fun q => q.status == .completed).length
      + (l.filter fun q => q.status == .failed).length = l.length := by
  intro l
  induction l with
  | nil => intro _; rfl
  | cons q rest ih =>
    intro hb
    have ih' := ih fun q hq => hb q (List.mem_cons_of_mem _ hq)
    rcases hb q (List.mem_cons_self _ _) with hc | hf
    · rw [List.filter_cons_of_pos (by simp [hc]),
        List.filter_cons_of_neg (by simp [hc])]
      simp only [List.length_cons]
      omega
    · rw [List.filter_cons_of_neg (by simp [hf]),
        List.filter_cons_of_pos (by simp [hf])]
      simp only [List.length_cons]
      omega

/-- C6: with `k ≥ 1` units of which fewer than `k` fail, the pipeline proceeds
to Publish (the graph streams all three nodes), and any Artifact produced has
exactly the deduplicated citations of the completed units — failed units
contribute nothing. -/
theorem partial_failure_still_publishes (questions : List String)
    (execOr : Nat → Except String ExecResponse) (content query task_id : String)
    (hne : questions ≠ [])
    (hm : ((executorOutput execOr (plannerUnits questions)).filter
        fun q => q.status == .failed).length < questions.length) :
    graphStream (.ok questions) execOr (.ok content) task_id query
      = [planner_node (.ok questions),
         executor_node execOr (plannerUnits questions),
         publisher_node (.ok content) query (executorOutput execOr (plannerUnits questions))] ∧
    ∀ r, (publisher_node (.ok content) query
          (executorOutput execOr (plannerUnits questions))).report = some r →
      r.citations = dedupById (allCitations
        ((executorOutput execOr (plannerUnits questions)).filter
          fun q => q.status == .completed)) := by
  set units := plannerUnits questions with hunits
  set out := executorOutput execOr units with hout
  have hulen : units.length = questions.length := by
    rw [hunits]; simp [plannerUnits]
  have holen : out.length = questions.length := by
    rw [hout]; simp [executorOutput, hulen]
  have hbinary : ∀ q ∈ out, q.status = .completed ∨ q.status = .failed := by
    rw [hout]; exact executorOutput_status execOr units
  have hcompleted_pos : 0 < (out.filter fun q => q.status == .completed).length := by
    have hsum := filter_status_length out hbinary
    omega
  have hune : units.isEmpty = false := by
    rw [hunits, List.isEmpty_eq_false]
    simp only [plannerUnits, Ne, List.map_eq_nil_iff]
    exact hne
  have houte : out.isEmpty = false := by
    rw [List.isEmpty_eq_false]
    intro h0
    rw [h0] at holen
    exact hne (List.length_eq_zero.mp holen.symm)
  have hs1q : (applyOutput (initialGraphState task_id query)
      (planner_node (.ok questions))).sub_questions = units := by
    rw [hunits]; rfl
  have hedge1 : should_continue_to_executor
      (applyOutput (initialGraphState task_id query) (planner_node (.ok questions)))
      = "executor" := by
    rw [should_continue_to_executor]
    rw [show (applyOutput (initialGraphState task_id query)
      (planner_node (.ok questions))).error = none from rfl]
    rw [hs1q, hune]
    rfl
  have hexec : executor_node execOr units
      = { sub_questions := some out,
          status := some "executing",
          current_step := some ("Research complete - "
            ++ natStr ((out.filter fun q => q.status == .completed).length) ++ "/"
            ++ natStr units.length ++ " questions answered"),
          progress_percentage := some 70 } := by
    rw [executor_node, if_neg (by rw [hune]; simp)]
  have hs2 : applyOutput (applyOutput (initialGraphState task_id query)
        (planner_node (.ok questions))) (executor_node execOr units)
      = { task_id, query, status := "executing", sub_questions := out, report := none,
          error := none,
          current_step := "Research complete - "
            ++ natStr ((out.filter fun q => q.status == .completed).length) ++ "/"
            ++ natStr units.length ++ " questions answered",
          progress_percentage := 70 } := by
    rw [hexec, hunits]
    rfl
  have hedge2 : should_continue_to_publisher
      (applyOutput (applyOutput (initialGraphState task_id query)
        (planner_node (.ok questions))) (executor_node execOr units)) = "publisher" := by
    rw [hs2]
    show (if truthyStr none = true then "end"
      else if out.isEmpty = true then "end"
      else if (out.filter fun q => q.status == .completed).length = 0 then "end"
      else "publisher") = "publisher"
    rw [houte]
    rw [if_neg (by decide), if_neg (by decide), if_neg (by omega)]
  have hcit : ∀ r, (publisher_node (.ok content) query out).report = some r →
      r.citations = dedupById (allCitations
        (out.filter fun q => q.status == .completed)) := by
    intro r hr
    have hc : r.citations = dedupById (allCitations out) := by
      simp only [publisher_node] at hr
      by_cases hs : format_summaries out = ""
      · rw [if_pos hs] at hr
        exact absurd hr (by simp)
      · rw [if_neg hs] at hr
        simp only [Option.some.injEq] at hr
        rw [← hr]
    have hu0 : ∀ u ∈ units, u.sources = [] := by
      rw [hunits]
      intro u hu
      simp only [plannerUnits, List.mem_map] at hu
      obtain ⟨q, _, rfl⟩ := hu
      rfl
    have hall : allCitations out = allCitations
        (out.filter fun q => q.status == .completed) := by
      rw [allCitations_eq_flatten, allCitations_eq_flatten]
      apply flatten_sources_completed
      rw [hout]
      exact executorOutput_failed_sources execOr units hu0
    rw [hc, hall]
  refine ⟨?_, hcit⟩
  simp only [graphStream]
  rw [hedge1, if_neg (by decide)]
  rw [hs1q, hedge2, if_neg (by decide)]
  rw [hs2]

/-- The citation the witness oracle produces for unit 0. -/
def citW : Citation :=
  { id := "S1", title := "T", url := "u", authors := none, date := none, snippet := "sn" }

/-- A witness oracle: unit 0 succeeds with one source, all others fail. -/
def exOrMix : Nat → Except String ExecResponse :=
  fun i => if i = 0 then .ok ⟨"sum", [⟨"T", "u", none, none, "sn"⟩]⟩ else .error "boom"

/-- The report the publisher produces on the mixed witness input. -/
def reportW2 : Report :=
  { title := "q", content := "rep", word_count := 1, citations := [citW] }

theorem partial_failure_still_publishes_witness :
    graphStream (.ok ["a", "b"]) exOrMix (.ok "rep") "t" "q"
      = [planner_node (.ok ["a", "b"]),
         executor_node exOrMix (plannerUnits ["a", "b"]),
         publisher_node (.ok "rep") "q" (executorOutput exOrMix (plannerUnits ["a", "b"]))] ∧
    reportW2.citations = dedupById (allCitations
      ((executorOutput exOrMix (plannerUnits ["a", "b"])).filter
        fun q => q.status == .completed)) := by
  have h := partial_failure_still_publishes ["a", "b"] exOrMix "rep" "q" "t"
    (by decide) (by decide)
  exact ⟨h.1, h.2 reportW2 rfl⟩

/-- C10: if the task is deleted from the registry before reaching a terminal
status (every poll before the deletion sees a non-terminal state, afterwards
the registry answers not-found), the stream consists of some progress
snapshots followed by exactly one `"Task not found"` error event, and then
terminates — no terminal event is ever emitted. -/
theorem stream_deleted_before_terminal (rest : List (Option TaskState)) :
    ∀ (pres : List TaskState) (lp : Int),
    (∀ t ∈ pres, t.status ≠ .done ∧ t.status ≠ .failed) →
    ∃ snaps : List Snapshot,
      event_generator (pres.map some ++ none :: rest) lp
        = snaps.map SSEEvent.progress ++ [SSEEvent.errorEvent "Task not found"] := by
  intro pres
  induction pres with
  | nil => intro lp _; exact ⟨[], rfl⟩
  | cons t pre ih =>
    intro lp hnt
    obtain ⟨h1, h2⟩ := hnt t (List.mem_cons_self _ _)
    rw [List.map_cons, List.cons_append]
    simp only [event_generator]
    rw [if_neg (not_or.mpr ⟨h1, h2⟩)]
    by_cases hch : (t.progress_percentage : Int) ≠ lp
    · rw [if_pos hch, if_pos hch]
      obtain ⟨snaps, hsn⟩ := ih (t.progress_percentage : Int)
        fun u hu => hnt u (List.mem_cons_of_mem _ hu)
      rw [hsn]
      exact ⟨snapshotOf t :: snaps, by simp⟩
    · rw [if_neg hch, if_neg hch]
      obtain ⟨snaps, hsn⟩ := ih lp fun u hu => hnt u (List.mem_cons_of_mem _ hu)
      rw [hsn]
      exact ⟨snaps, by simp⟩

theorem stream_deleted_before_terminal_witness :
    ∃ snaps : List Snapshot,
      event_generator ([createTask "t" "q"].map some ++ none :: []) (-1)
        = snaps.map SSEEvent.progress ++ [SSEEvent.errorEvent "Task not found"] :=
  stream_deleted_before_terminal [] [createTask "t" "q"] (-1) (by decide)

/-- An executor oracle failing every unit. -/
def failAllExec : Nat → Except String ExecResponse := fun _ => .error "gen down"

/-- C1 (divergence witness): with an empty plan the graph stops after the
planner (Execute never invoked) and the final recorded status is `PLANNING` —
not `FAILED`; with all units failed the graph stops after the executor
(Publish never invoked) and the final recorded status is `EXECUTING` — not
`FAILED`.  The short-circuiting conditional edges return `END` without setting
any error, so the `FAILED` stamp of `run_research_workflow` never fires. -/
theorem stuck_nonterminal_on_empty_plan_and_all_failed :
    (graphStream (.ok []) failAllExec (.ok "rep") "t" "q").length = 1 ∧
    (run_research_workflow (createTask "t" "q") (.ok []) failAllExec (.ok "rep")).1.status
      = .planning ∧
    (graphStream (.ok ["q1", "q2"]) failAllExec (.ok "rep") "t" "q").length = 2 ∧
    (run_research_workflow (createTask "t" "q") (.ok ["q1", "q2"]) failAllExec
        (.ok "rep")).1.status = .executing ∧
    TaskStatus.planning ≠ .failed ∧ TaskStatus.executing ≠ .failed :=
  ⟨rfl, rfl, rfl, rfl, by decide, by decide⟩

/-! ## Progress monotonicity (C8) support -/

/-- The full write log of one task: the creation write of `POST /api/report`
followed by every `memory_store.update` of `run_research_workflow`. -/
def workflowWrites (task_id query : String) (planOr : Except String (List String))
    (execOr : Nat → Except String ExecResponse)
    (synthOr : Except String String) : List TaskState :=
  createTask task_id query
    :: (run_research_workflow (createTask task_id query) planOr execOr synthOr).2

theorem processNodeOutput_simple (t : TaskState) (o : NodeOutput) (p : Nat) (s : String)
    (hrep : o.report = none) (herr : o.error = none)
    (hp : o.progress_percentage = some p) (hst : o.status = some s) (hs : s ≠ "") :
    (processNodeOutput t o).progress_percentage = p ∧
    (processNodeOutput t o).status = (statusOfString s).getD t.status ∧
    (processNodeOutput t o).report = t.report := by
  simp only [processNodeOutput, hrep, herr, hp, hst, Option.isSome_some, Bool.or_true,
    if_pos hs]
  cases hsq : o.sub_questions with
  | none => simp [TaskState.update_progress]
  | some qs' =>
    by_cases hq : qs'.isEmpty
    · simp [hq, TaskState.update_progress]
    · simp [hq, TaskState.update_progress]

theorem processNodeOutput_report_out (t : TaskState) (o : NodeOutput) (r : Report)
    (hrep : o.report = some r) (herr : o.error = none) :
    (processNodeOutput t o).progress_percentage = 100 ∧
    (processNodeOutput t o).status = .done ∧
    (processNodeOutput t o).report = some r := by
  simp only [processNodeOutput, hrep, herr]
  simp [TaskState.update_progress]

theorem processNodeOutput_error_out (t : TaskState) (o : NodeOutput) (msg : String)
    (herr : o.error = some msg) (hmsg : msg ≠ "") :
    (processNodeOutput t o).status = .failed := by
  simp only [processNodeOutput, herr, if_pos hmsg]

theorem finalUpdate_no_error (t : TaskState) (o : NodeOutput) (herr : o.error = none)
    (_hst : t.status ≠ .done) (hrep : t.report = none) : finalUpdate t o = t := by
  simp [finalUpdate, herr, finalNoError, hrep]

theorem finalUpdate_done (t : TaskState) (o : NodeOutput) (herr : o.error = none)
    (hst : t.status = .done) : finalUpdate t o = t := by
  simp [finalUpdate, herr, finalNoError, hst]

theorem plannerUnits_isEmpty_false {qs : List String} (hq : qs ≠ []) :
    (plannerUnits qs).isEmpty = false := by
  rw [List.isEmpty_eq_false]
  simp only [plannerUnits, Ne, List.map_eq_nil_iff]
  exact hq

theorem executorOutput_isEmpty_false (execOr : Nat → Except String ExecResponse)
    {qs : List String} (hq : qs ≠ []) :
    (executorOutput execOr (plannerUnits qs)).isEmpty = false := by
  rw [List.isEmpty_eq_false]
  intro h0
  have hlen : (executorOutput execOr (plannerUnits qs)).length = qs.length := by
    simp [executorOutput, plannerUnits]
  rw [h0] at hlen
  exact hq (List.length_eq_zero.mp hlen.symm)

theorem executor_node_eq (execOr : Nat → Except String ExecResponse)
    {qs : List String} (hq : qs ≠ []) :
    executor_node execOr (plannerUnits qs)
      = { sub_questions := some (executorOutput execOr (plannerUnits qs)),
          status := some "executing",
          current_step := some ("Research complete - "
            ++ natStr (((executorOutput execOr (plannerUnits qs)).filter
                fun q => q.status == .completed).length) ++ "/"
            ++ natStr (plannerUnits qs).length ++ " questions answered"),
          progress_percentage := some 70 } := by
  rw [executor_node, if_neg (by rw [plannerUnits_isEmpty_false hq]; simp)]

theorem edge_to_executor (task_id query : String) {qs : List String} (hq : qs ≠ []) :
    should_continue_to_executor
      (applyOutput (initialGraphState task_id query) (planner_node (.ok qs)))
      = "executor" := by
  rw [should_continue_to_executor]
  rw [show (applyOutput (initialGraphState task_id query)
    (planner_node (.ok qs))).error = none from rfl]
  rw [show (applyOutput (initialGraphState task_id query)
    (planner_node (.ok qs))).sub_questions = plannerUnits qs from rfl]
  rw [plannerUnits_isEmpty_false hq]
  rfl

theorem state_after_executor (task_id query : String)
    (execOr : Nat → Except String ExecResponse) {qs : List String} (hq : qs ≠ []) :
    applyOutput (applyOutput (initialGraphState task_id query) (planner_node (.ok qs)))
        (executor_node execOr (plannerUnits qs))
      = { task_id, query, status := "executing",
          sub_questions := executorOutput execOr (plannerUnits qs), report := none,
          error := none,
          current_step := "Research complete - "
            ++ natStr (((executorOutput execOr (plannerUnits qs)).filter
                fun q => q.status == .completed).length) ++ "/"
            ++ natStr (plannerUnits qs).length ++ " questions answered",
          progress_percentage := 70 } := by
  rw [executor_node_eq execOr hq]
  rfl

theorem edge_to_publisher (task_id query : String)
    (execOr : Nat → Except String ExecResponse) {qs : List String} (hq : qs ≠ [])
    (hc : 0 < ((executorOutput execOr (plannerUnits qs)).filter
        fun q => q.status == .completed).length) :
    should_continue_to_publisher
      (applyOutput (applyOutput (initialGraphState task_id query)
        (planner_node (.ok qs))) (executor_node execOr (plannerUnits qs)))
      = "publisher" := by
  rw [state_after_executor task_id query execOr hq]
  show (if truthyStr none = true then "end"
    else if (executorOutput execOr (plannerUnits qs)).isEmpty = true then "end"
    else if ((executorOutput execOr (plannerUnits qs)).filter
        fun q => q.status == .completed).length = 0 then "end"
    else "publisher") = "publisher"
  rw [executorOutput_isEmpty_false execOr hq]
  rw [if_neg (by decide), if_neg (by decide), if_neg (by omega)]

theorem edge_to_publisher_end (task_id query : String)
    (execOr : Nat → Except String ExecResponse) {qs : List String} (hq : qs ≠ [])
    (hc : ((executorOutput execOr (plannerUnits qs)).filter
        fun q => q.status == .completed).length = 0) :
    should_continue_to_publisher
      (applyOutput (applyOutput (initialGraphState task_id query)
        (planner_node (.ok qs))) (executor_node execOr (plannerUnits qs)))
      = "end" := by
  rw [state_after_executor task_id query execOr hq]
  show (if truthyStr none = true then "end"
    else if (executorOutput execOr (plannerUnits qs)).isEmpty = true then "end"
    else if ((executorOutput execOr (plannerUnits qs)).filter
        fun q => q.status == .completed).length = 0 then "end"
    else "publisher") = "end"
  rw [executorOutput_isEmpty_false execOr hq]
  rw [if_neg (by decide), if_neg (by decide), if_pos hc]

theorem graphStream_two (task_id query : String)
    (execOr : Nat → Except String ExecResponse) (synthOr : Except String String)
    {qs : List String} (hq : qs ≠ [])
    (hc : ((executorOutput execOr (plannerUnits qs)).filter
        fun q => q.status == .completed).length = 0) :
    graphStream (.ok qs) execOr synthOr task_id query
      = [planner_node (.ok qs), executor_node execOr (plannerUnits qs)] := by
  simp only [graphStream]
  rw [edge_to_executor task_id query hq, if_neg (by decide)]
  rw [show (applyOutput (initialGraphState task_id query)
    (planner_node (.ok qs))).sub_questions = plannerUnits qs from rfl]
  rw [edge_to_publisher_end task_id query execOr hq hc, if_pos rfl]

theorem graphStream_three (task_id query : String)
    (execOr : Nat → Except String ExecResponse) (synthOr : Except String String)
    {qs : List String} (hq : qs ≠ [])
    (hc : 0 < ((executorOutput execOr (plannerUnits qs)).filter
        fun q => q.status == .completed).length) :
    graphStream (.ok qs) execOr synthOr task_id query
      = [planner_node (.ok qs), executor_node execOr (plannerUnits qs),
         publisher_node synthOr query (executorOutput execOr (plannerUnits qs))] := by
  simp only [graphStream]
  rw [edge_to_executor task_id query hq, if_neg (by decide)]
  rw [show (applyOutput (initialGraphState task_id query)
    (planner_node (.ok qs))).sub_questions = plannerUnits qs from rfl]
  rw [edge_to_publisher task_id query execOr hq hc, if_neg (by decide)]
  rw [state_after_executor task_id query execOr hq]

theorem planner_error_edge (task_id query e : String) :
    should_continue_to_executor
      (applyOutput (initialGraphState task_id query) (planner_node (.error e)))
      = "end" := by
  have hmsg : ("Planner failed: " ++ e) ≠ "" :=
    append_ne_empty_of_left_ne _ _ (by decide)
  rw [should_continue_to_executor]
  rw [show (applyOutput (initialGraphState task_id query)
    (planner_node (.error e))).error = some ("Planner failed: " ++ e) from rfl]
  rw [show truthyStr (some ("Planner failed: " ++ e)) = true by simp [truthyStr, hmsg]]
  rfl

theorem graphStream_planner_error (task_id query e : String)
    (execOr : Nat → Except String ExecResponse) (synthOr : Except String String) :
    graphStream (.error e) execOr synthOr task_id query = [planner_node (.error e)] := by
  simp only [graphStream]
  rw [planner_error_edge task_id query e, if_pos rfl]

/-- C8: for every run whose registry writes never carry status `FAILED`, the
progress percentages of the write log (creation write included) form a
non-decreasing sequence. -/
theorem progress_monotone (task_id query : String)
    (planOr : Except String (List String)) (execOr : Nat → Except String ExecResponse)
    (synthOr : Except String String)
    (h : ∀ w ∈ workflowWrites task_id query planOr execOr synthOr, w.status ≠ .failed) :
    List.Chain' (fun a b => a.progress_percentage ≤ b.progress_percentage)
      (workflowWrites task_id query planOr execOr synthOr) := by
  rcases planOr with e | qs
  · -- the planner failed: the write after the planner node is FAILED — vacuous
    exfalso
    have hmsg : ("Planner failed: " ++ e) ≠ "" :=
      append_ne_empty_of_left_ne _ _ (by decide)
    have hrun : (run_research_workflow (createTask task_id query)
          (.error e) execOr synthOr).2
        = [({ createTask task_id query with status := TaskStatus.planning }).update_progress
            "Planning research questions..." 5,
           processNodeOutput (({ createTask task_id query with
              status := TaskStatus.planning }).update_progress
            "Planning research questions..." 5) (planner_node (.error e)),
           finalUpdate (processNodeOutput (({ createTask task_id query with
              status := TaskStatus.planning }).update_progress
            "Planning research questions..." 5) (planner_node (.error e)))
            (planner_node (.error e))] := by
      simp only [run_research_workflow,
        show (createTask task_id query).task_id = task_id from rfl,
        show (createTask task_id query).query = query from rfl,
        graphStream_planner_error, processAll, List.getLast?_singleton]
      rfl
    have hmem : (processNodeOutput (({ createTask task_id query with
          status := TaskStatus.planning }).update_progress
        "Planning research questions..." 5) (planner_node (.error e)))
        ∈ workflowWrites task_id query (.error e) execOr synthOr := by
      rw [workflowWrites, hrun]
      simp
    exact h _ hmem (processNodeOutput_error_out _ _ _ rfl hmsg)
  · by_cases hq : qs = []
    · -- empty plan: the run stops after the planner with progress 0,5,20,20
      subst hq
      rw [workflowWrites]
      have hrun : (run_research_workflow (createTask task_id query)
            (.ok ([] : List String)) execOr synthOr).2
          = [({ createTask task_id query with status := TaskStatus.planning }).update_progress
              "Planning research questions..." 5,
             processNodeOutput (({ createTask task_id query with
                status := TaskStatus.planning }).update_progress
              "Planning research questions..." 5) (planner_node (.ok [])),
             processNodeOutput (({ createTask task_id query with
                status := TaskStatus.planning }).update_progress
              "Planning research questions..." 5) (planner_node (.ok []))] := rfl
      rw [hrun]
      refine List.chain'_cons.mpr ⟨?_, List.chain'_cons.mpr ⟨?_,
        List.chain'_cons.mpr ⟨?_, List.chain'_singleton _⟩⟩⟩
      · show (0 : Nat) ≤ 5
        omega
      · show (5 : Nat) ≤ 20
        omega
      · show (20 : Nat) ≤ 20
        omega
    · by_cases hc : ((executorOutput execOr (plannerUnits qs)).filter
          fun q => q.status == .completed).length = 0
      · -- all units failed: the run stops after the executor, progress 0,5,20,70,70
        have hrepEO : (executor_node execOr (plannerUnits qs)).report = none := by
          rw [executor_node_eq execOr hq]
        have herrEO : (executor_node execOr (plannerUnits qs)).error = none := by
          rw [executor_node_eq execOr hq]
        have hpEO : (executor_node execOr (plannerUnits qs)).progress_percentage
            = some 70 := by
          rw [executor_node_eq execOr hq]
        have hstEO : (executor_node execOr (plannerUnits qs)).status
            = some "executing" := by
          rw [executor_node_eq execOr hq]
        have hW1 := processNodeOutput_simple
          (({ createTask task_id query with status := TaskStatus.planning }).update_progress
            "Planning research questions..." 5)
          (planner_node (.ok qs)) 20 "planning" rfl rfl rfl rfl (by decide)
        have hW1status : (processNodeOutput (({ createTask task_id query with
              status := TaskStatus.planning }).update_progress
            "Planning research questions..." 5) (planner_node (.ok qs))).status
            = TaskStatus.planning := by
          rw [hW1.2.1]; rfl
        have hW2 := processNodeOutput_simple
          (processNodeOutput (({ createTask task_id query with
              status := TaskStatus.planning }).update_progress
            "Planning research questions..." 5) (planner_node (.ok qs)))
          (executor_node execOr (plannerUnits qs)) 70 "executing"
          hrepEO herrEO hpEO hstEO (by decide)
        have hW2status : (processNodeOutput (processNodeOutput
            (({ createTask task_id query with
              status := TaskStatus.planning }).update_progress
            "Planning research questions..." 5) (planner_node (.ok qs)))
            (executor_node execOr (plannerUnits qs))).status = TaskStatus.executing := by
          rw [hW2.2.1]; rfl
        have hfin : finalUpdate (processNodeOutput (processNodeOutput
            (({ createTask task_id query with
              status := TaskStatus.planning }).update_progress
            "Planning research questions..." 5) (planner_node (.ok qs)))
            (executor_node execOr (plannerUnits qs)))
            (executor_node execOr (plannerUnits qs))
            = processNodeOutput (processNodeOutput
            (({ createTask task_id query with
              status := TaskStatus.planning }).update_progress
            "Planning research questions..." 5) (planner_node (.ok qs)))
            (executor_node execOr (plannerUnits qs)) := by
          refine finalUpdate_no_error _ _ herrEO ?_ ?_
          · rw [hW2status]; decide
          · rw [hW2.2.2, hW1.2.2]; rfl
        have hrun : (run_research_workflow (createTask task_id query)
              (.ok qs) execOr synthOr).2
            = [({ createTask task_id query with status := TaskStatus.planning }).update_progress
                "Planning research questions..." 5,
               processNodeOutput (({ createTask task_id query with
                  status := TaskStatus.planning }).update_progress
                "Planning research questions..." 5) (planner_node (.ok qs)),
               processNodeOutput (processNodeOutput
                (({ createTask task_id query with
                  status := TaskStatus.planning }).update_progress
                "Planning research questions..." 5) (planner_node (.ok qs)))
                (executor_node execOr (plannerUnits qs)),
               finalUpdate (processNodeOutput (processNodeOutput
                (({ createTask task_id query with
                  status := TaskStatus.planning }).update_progress
                "Planning research questions..." 5) (planner_node (.ok qs)))
                (executor_node execOr (plannerUnits qs)))
                (executor_node execOr (plannerUnits qs))] := by
          simp only [run_research_workflow,
            show (createTask task_id query).task_id = task_id from rfl,
            show (createTask task_id query).query = query from rfl,
            graphStream_two task_id query execOr synthOr hq hc, processAll,
            List.getLast?_cons_cons, List.getLast?_singleton]
          rfl
        rw [workflowWrites, hrun, hfin]
        refine List.chain'_cons.mpr ⟨?_, List.chain'_cons.mpr ⟨?_,
          List.chain'_cons.mpr ⟨?_, List.chain'_cons.mpr ⟨?_,
          List.chain'_singleton _⟩⟩⟩⟩
        · show (0 : Nat) ≤ 5
          omega
        · rw [hW1.1]
          show (5 : Nat) ≤ 20
          omega
        · rw [hW1.1, hW2.1]
          omega
        · rw [hW2.1]
      · -- at least one unit completed: the publisher node runs
        have hcpos : 0 < ((executorOutput execOr (plannerUnits qs)).filter
            fun q => q.status == .completed).length := Nat.pos_of_ne_zero hc
        have hW1 := processNodeOutput_simple
          (({ createTask task_id query with status := TaskStatus.planning }).update_progress
            "Planning research questions..." 5)
          (planner_node (.ok qs)) 20 "planning" rfl rfl rfl rfl (by decide)
        have hrepEO : (executor_node execOr (plannerUnits qs)).report = none := by
          rw [executor_node_eq execOr hq]
        have herrEO : (executor_node execOr (plannerUnits qs)).error = none := by
          rw [executor_node_eq execOr hq]
        have hpEO : (executor_node execOr (plannerUnits qs)).progress_percentage
            = some 70 := by
          rw [executor_node_eq execOr hq]
        have hstEO : (executor_node execOr (plannerUnits qs)).status
            = some "executing" := by
          rw [executor_node_eq execOr hq]
        have hW2 := processNodeOutput_simple
          (processNodeOutput (({ createTask task_id query with
              status := TaskStatus.planning }).update_progress
            "Planning research questions..." 5) (planner_node (.ok qs)))
          (executor_node execOr (plannerUnits qs)) 70 "executing"
          hrepEO herrEO hpEO hstEO (by decide)
        have hrun : (run_research_workflow (createTask task_id query)
              (.ok qs) execOr synthOr).2
            = [({ createTask task_id query with status := TaskStatus.planning }).update_progress
                "Planning research questions..." 5,
               processNodeOutput (({ createTask task_id query with
                  status := TaskStatus.planning }).update_progress
                "Planning research questions..." 5) (planner_node (.ok qs)),
               processNodeOutput (processNodeOutput
                (({ createTask task_id query with
                  status := TaskStatus.planning }).update_progress
                "Planning research questions..." 5) (planner_node (.ok qs)))
                (executor_node execOr (plannerUnits qs)),
               processNodeOutput (processNodeOutput (processNodeOutput
                (({ createTask task_id query with
                  status := TaskStatus.planning }).update_progress
                "Planning research questions..." 5) (planner_node (.ok qs)))
                (executor_node execOr (plannerUnits qs)))
                (publisher_node synthOr query (executorOutput execOr (plannerUnits qs))),
               finalUpdate (processNodeOutput (processNodeOutput (processNodeOutput
                (({ createTask task_id query with
                  status := TaskStatus.planning }).update_progress
                "Planning research questions..." 5) (planner_node (.ok qs)))
                (executor_node execOr (plannerUnits qs)))
                (publisher_node synthOr query (executorOutput execOr (plannerUnits qs))))
                (publisher_node synthOr query (executorOutput execOr (plannerUnits qs)))] := by
          simp only [run_research_workflow,
            show (createTask task_id query).task_id = task_id from rfl,
            show (createTask task_id query).query = query from rfl,
            graphStream_three task_id query execOr synthOr hq hcpos, processAll,
            List.getLast?_cons_cons, List.getLast?_singleton]
          rfl
        by_cases hsum : format_summaries (executorOutput execOr (plannerUnits qs)) = ""
        · -- nothing to synthesize: the publisher write is FAILED — vacuous
          exfalso
          have herrP : (publisher_node synthOr query
              (executorOutput execOr (plannerUnits qs))).error
              = some "Publisher failed: No completed research to synthesize" := by
            simp only [publisher_node]
            rw [if_pos hsum]
          have hmem : (processNodeOutput (processNodeOutput (processNodeOutput
              (({ createTask task_id query with
                status := TaskStatus.planning }).update_progress
              "Planning research questions..." 5) (planner_node (.ok qs)))
              (executor_node execOr (plannerUnits qs)))
              (publisher_node synthOr query (executorOutput execOr (plannerUnits qs))))
              ∈ workflowWrites task_id query (.ok qs) execOr synthOr := by
            rw [workflowWrites, hrun]
            simp
          exact h _ hmem (processNodeOutput_error_out _ _ _ herrP (by decide))
        · rcases synthOr with se | content
          · -- synthesis generator failure: the publisher write is FAILED — vacuous
            exfalso
            have herrP : (publisher_node (.error se) query
                (executorOutput execOr (plannerUnits qs))).error
                = some ("Publisher failed: " ++ se) := by
              rw [publisher_node, if_neg hsum]
            have hmem : (processNodeOutput (processNodeOutput (processNodeOutput
                (({ createTask task_id query with
                  status := TaskStatus.planning }).update_progress
                "Planning research questions..." 5) (planner_node (.ok qs)))
                (executor_node execOr (plannerUnits qs)))
                (publisher_node (.error se) query (executorOutput execOr (plannerUnits qs))))
                ∈ workflowWrites task_id query (.ok qs) execOr (.error se) := by
              rw [workflowWrites, hrun]
              simp
            exact h _ hmem (processNodeOutput_error_out _ _ _ herrP
              (append_ne_empty_of_left_ne _ _ (by decide)))
          · -- full success: progress 0,5,20,70,100,100
            have herrP : (publisher_node (.ok content) query
                (executorOutput execOr (plannerUnits qs))).error = none := by
              rw [publisher_node, if_neg hsum]
            have hex : ∃ r, (publisher_node (.ok content) query
                (executorOutput execOr (plannerUnits qs))).report = some r := by
              rw [publisher_node, if_neg hsum]
              exact ⟨_, rfl⟩
            obtain ⟨r, hrepP⟩ := hex
            have hW3 := processNodeOutput_report_out
              (processNodeOutput (processNodeOutput
                (({ createTask task_id query with
                  status := TaskStatus.planning }).update_progress
                "Planning research questions..." 5) (planner_node (.ok qs)))
                (executor_node execOr (plannerUnits qs)))
              (publisher_node (.ok content) query (executorOutput execOr (plannerUnits qs)))
              r hrepP herrP
            have hfin : finalUpdate (processNodeOutput (processNodeOutput (processNodeOutput
                (({ createTask task_id query with
                  status := TaskStatus.planning }).update_progress
                "Planning research questions..." 5) (planner_node (.ok qs)))
                (executor_node execOr (plannerUnits qs)))
                (publisher_node (.ok content) query (executorOutput execOr (plannerUnits qs))))
                (publisher_node (.ok content) query (executorOutput execOr (plannerUnits qs)))
                = processNodeOutput (processNodeOutput (processNodeOutput
                (({ createTask task_id query with
                  status := TaskStatus.planning }).update_progress
                "Planning research questions..." 5) (planner_node (.ok qs)))
                (executor_node execOr (plannerUnits qs)))
                (publisher_node (.ok content) query
                  (executorOutput execOr (plannerUnits qs))) :=
              finalUpdate_done _ _ herrP hW3.2.1
            rw [workflowWrites, hrun, hfin]
            refine List.chain'_cons.mpr ⟨?_, List.chain'_cons.mpr ⟨?_,
              List.chain'_cons.mpr ⟨?_, List.chain'_cons.mpr ⟨?_,
              List.chain'_cons.mpr ⟨?_, List.chain'_singleton _⟩⟩⟩⟩⟩
            · show (0 : Nat) ≤ 5
              omega
            · rw [hW1.1]
              show (5 : Nat) ≤ 20
              omega
            · rw [hW1.1, hW2.1]
              omega
            · rw [hW2.1, hW3.1]
              omega
            · rw [hW3.1]

theorem progress_monotone_witness :
    List.Chain' (fun a b => a.progress_percentage ≤ b.progress_percentage)
      (workflowWrites "t" "q" (.ok ["a"]) exOrW3 (.ok "rep")) :=
  progress_monotone "t" "q" (.ok ["a"]) exOrW3 (.ok "rep") (by decide)
